/- Verification of the `create-infographic.py` orchestration pipeline
   (examples/investment-infographic/create-infographic.py).

   Shallow embedding conventions:
   * The external world is an oracle (`World`): the behavior of spawned
     processes (`exec`), whether a file write raises an OS error
     (`writeFails`, with `osMsg` giving the OS-generated diagnostic text),
     existence of the primary tool / source file / renderer entry script,
     environment variables, `sys.executable`, and the wall-clock timestamp.
   * File paths are modelled relative to the run's output directory
     (`notebook-id.txt`, `01-overview-guide.md`, `visuals/roadmap`, ...).
     The source document path is the script directory joined with the
     fixed source file name.
   * Mutable run state (`St`) holds: the files written by this process
     (an association list, last write wins), the lines printed to the
     error stream, the trace of external commands spawned, the
     directories created, and the two session identifiers.
   * Informational prints to standard output are not modelled; only the
     error stream (`errLog`) is, since the spec's observable behavior is
     phrased in terms of warnings/diagnostics on the error stream.
   * Python exceptions are modelled by `PErr`: `runtimeErr` for the
     RuntimeError raised by the command runner, `osErr` for an OSError
     raised by a file write.  `sys.exit(1)` in the prerequisite checker is
     an `Except.error`.  Interpolating a possibly-unset identifier follows
     Python `str()` semantics (`None` prints as "None"); those branches
     are unreachable in the actual control flow, where a stage only runs
     after the identifiers are set. -/
import Mathlib

namespace Infographic

/-- Outcome of spawning one external process (`subprocess.run` with
captured output). -/
structure ExecResult where
  returncode : Int
  stdout : String
  stderr : String
deriving DecidableEq

/-- The environment oracle: everything outside the script's own control. -/
structure World where
  exec : List String → ExecResult
  writeFails : String → Bool
  osMsg : String → String
  nlmInstalled : Bool
  sourceExists : Bool
  figureCliExists : String → Bool
  envPaperDir : String
  dfApiKey : String
  scriptDir : String
  pyExe : String
  now : String

/-- Run configuration from the command line (`__init__` arguments).  The
output directory itself is the implicit root of all modelled paths. -/
structure Config where
  skipAudio : Bool
  withPaper2any : Bool
  paper2anyDirArg : String

/-- Mutable state of one run. -/
structure St where
  fs : List (String × String)
  errLog : List String
  trace : List (List String)
  dirs : List String
  notebookId : Option String
  sourceId : Option String
deriving DecidableEq

def initSt : St := ⟨[], [], [], [], none, none⟩

/-- Python `str()` applied to an optional identifier attribute. -/
def pyStr : Option String → String
  | some v => v
  | none => "None"

/-- Python truthiness of an optional identifier attribute
(`if self.notebook_id:`): falsy when unset and when the empty string. -/
def pyTruthy : Option String → Bool
  | some v => v != ""
  | none => false

/-- Python `str.strip()`: surrounding whitespace removed, modelled
directly on the character list so concrete runs evaluate inside the
kernel. -/
def pyStrip (s : String) : String :=
  ⟨((s.data.dropWhile Char.isWhitespace).reverse.dropWhile
      Char.isWhitespace).reverse⟩

/-- Exceptions that can cross a stage boundary. -/
inductive PErr where
  | runtimeErr (msg : String)
  | osErr (msg : String)
deriving DecidableEq

/-- `str(e)` for the top-level handler's diagnostic. -/
def errText : PErr → String
  | .runtimeErr m => m
  | .osErr m => m

/-- Overwriting file write into the modelled output directory. -/
def fsSet (fs : List (String × String)) (path content : String) :
    List (String × String) :=
  (path, content) :: fs.filter (fun q => !(q.1 == path))

/-- Content of a modelled file, `none` when it does not exist. -/
def fsGet : List (String × String) → String → Option String
  | [], _ => none
  | (q, c) :: rest, p => if q == p then some c else fsGet rest p

/-- `Path.write_text`: raises an OSError (per the oracle) or records the
file. -/
def writeFile (w : World) (path content : String) (s : St) :
    Option PErr × St :=
  if w.writeFails path then (some (PErr.osErr (w.osMsg path)), s)
  else (none, { s with fs := fsSet s.fs path content })

/-- The RuntimeError message raised by `_nlm` on a non-zero exit status. -/
def nlmFailMsg (w : World) (args : List String) : String :=
  "nlm " ++ String.intercalate " " args ++ " failed: " ++
    pyStrip (w.exec ("nlm" :: args)).stderr

/-- `_nlm`: the command runner.  Spawns `nlm` with the given arguments
(recorded in the trace), returns the trimmed stdout on exit status 0 and
the RuntimeError message (carrying the trimmed stderr) otherwise. -/
def nlmCall (w : World) (args : List String) (s : St) :
    Except String String × St :=
  let s1 := { s with trace := s.trace ++ [ "nlm" :: args ] }
  if (w.exec ("nlm" :: args)).returncode != 0 then
    (Except.error (nlmFailMsg w args), s1)
  else
    (Except.ok (pyStrip (w.exec ("nlm" :: args)).stdout), s1)

/-- One content generation step: (filename, nlm_command, description,
needs_source_id). -/
structure GenStep where
  filename : String
  command : String
  description : String
  needsSource : Bool
deriving DecidableEq

def GENERATION_STEPS : List GenStep :=
  [⟨"01-overview-guide.md", "generate-guide", "Structured overview guide", false⟩,
   ⟨"02-timeline.md", "timeline", "Investment process timeline", true⟩,
   ⟨"03-mindmap.md", "mindmap", "Interactive process mindmap", true⟩,
   ⟨"04-briefing-doc.md", "briefing-doc", "Executive briefing document", true⟩,
   ⟨"05-faq.md", "faq", "Frequently asked questions", true⟩,
   ⟨"06-outline.md", "outline", "Detailed content outline", true⟩]

/-- Argument list handed to `_nlm` for one generation task: the session
id always, the source id exactly when the task's flag requires it. -/
def genArgs (st : GenStep) (nb src : String) : List String :=
  if st.needsSource then [st.command, nb, src] else [st.command, nb]

/-- The full spawned command for one generation task. -/
def genCmd (st : GenStep) (nb src : String) : List String :=
  "nlm" :: genArgs st nb src

/-- Whether the oracle makes this generation task's subcommand fail. -/
def genFails (w : World) (nb src : String) (st : GenStep) : Bool :=
  (w.exec (genCmd st nb src)).returncode != 0

/-- The text the command runner returns for this task on success. -/
def genOut (w : World) (nb src : String) (st : GenStep) : String :=
  pyStrip (w.exec (genCmd st nb src)).stdout

/-- The warning line logged when one generation task fails. -/
def genWarn (w : World) (nb src : String) (st : GenStep) : String :=
  "  Warning: " ++ st.description ++ " generation failed: " ++
    nlmFailMsg w (genArgs st nb src)

/-- One iteration of `_generate_all_content`: call the runner, write the
result; a RuntimeError is absorbed into a warning, an OSError from the
write escapes. -/
def genStep (w : World) (nb src : String) (st : GenStep) (s : St) :
    Option PErr × St :=
  match nlmCall w (genArgs st nb src) s with
  | (Except.error m, s1) =>
      (none, { s1 with errLog := s1.errLog ++
        ["  Warning: " ++ st.description ++ " generation failed: " ++ m] })
  | (Except.ok out, s1) => writeFile w st.filename out s1

/-- The loop of `_generate_all_content` over a list of tasks. -/
def genSteps (w : World) (nb src : String) :
    List GenStep → St → Option PErr × St
  | [], s => (none, s)
  | st :: rest, s =>
    match genStep w nb src st s with
    | (some e, s1) => (some e, s1)
    | (none, s1) => genSteps w nb src rest s1

/-- `_generate_all_content`. -/
def generateAllContent (w : World) (s : St) : Option PErr × St :=
  genSteps w (pyStr s.notebookId) (pyStr s.sourceId) GENERATION_STEPS s

def notebookTitle : String := "Investment Process Infographic"

/-- Path of the source document (script directory relative). -/
def sourcePath (w : World) : String :=
  w.scriptDir ++ "/investment-process.md"

/-- `_create_notebook`: create the session, record the id, persist it. -/
def createNotebook (w : World) (s : St) : Option PErr × St :=
  match nlmCall w ["create", notebookTitle] s with
  | (Except.error m, s1) => (some (PErr.runtimeErr m), s1)
  | (Except.ok nbId, s1) =>
      writeFile w "notebook-id.txt" nbId { s1 with notebookId := some nbId }

/-- `_add_source`: register the source document, record the id, persist
it. -/
def addSource (w : World) (s : St) : Option PErr × St :=
  match nlmCall w ["add", pyStr s.notebookId, sourcePath w] s with
  | (Except.error m, s1) => (some (PErr.runtimeErr m), s1)
  | (Except.ok srcId, s1) =>
      writeFile w "source-id.txt" srcId { s1 with sourceId := some srcId }

/-- `_wait_for_processing`: a fixed wall-clock sleep, pure no-op on the
modelled state. -/
def waitForProcessing (s : St) : St := s

def audioPrompt : String :=
  "Create an engaging overview of the investment process. " ++
  "Walk through each phase from goal-setting to rebalancing. " ++
  "Use a professional but approachable tone suitable for new investors."

/-- `_create_audio`: single invocation; failure is absorbed into a
warning. -/
def createAudio (w : World) (s : St) : St :=
  match nlmCall w ["audio-create", pyStr s.notebookId, audioPrompt] s with
  | (Except.error m, s1) =>
      { s1 with errLog := s1.errLog ++ ["  Warning: Audio creation failed: " ++ m] }
  | (Except.ok _, s1) => s1

/-- One Paper2Any rendering step: (input_file, graph_type_or_mode,
output_subdir, description). -/
structure RenderStep where
  inputFile : String
  mode : String
  subdir : String
  description : String
deriving DecidableEq

def PAPER2ANY_STEPS : List RenderStep :=
  [⟨"02-timeline.md", "tech_route", "roadmap", "Process roadmap (SVG + PPTX)"⟩,
   ⟨"01-overview-guide.md", "model_arch", "architecture", "Architecture diagram (SVG + PPTX)"⟩,
   ⟨"04-briefing-doc.md", "paper2ppt", "slides", "Slide deck (PPTX)"⟩]

/-- Command line of `_run_paper2figure`. -/
def figureCmd (w : World) (pdir inputPath graphType outDir : String) :
    List String :=
  [w.pyExe, pdir ++ "/script/run_paper2figure_cli.py",
   "--input", inputPath, "--graph-type", graphType, "--style", "cartoon",
   "--aspect-ratio", "16:9", "--language", "en", "--output-dir", outDir]

/-- Command line of `_run_paper2ppt`. -/
def pptCmd (w : World) (pdir inputPath outDir : String) : List String :=
  [w.pyExe, pdir ++ "/script/run_paper2ppt_cli.py",
   "--input", inputPath, "--page-count", "10",
   "--style", "Modern financial style with clean charts",
   "--language", "en", "--output-dir", outDir]

/-- The renderer invocation dispatched for one rendering task. -/
def renderCmd (w : World) (pdir : String) (t : RenderStep) : List String :=
  if t.mode == "paper2ppt" then
    pptCmd w pdir t.inputFile ("visuals/" ++ t.subdir)
  else
    figureCmd w pdir t.inputFile t.mode ("visuals/" ++ t.subdir)

/-- The fallback RuntimeError text when the renderer's stderr is blank
(`result.stderr.strip() or "..."`). -/
def renderFallback (t : RenderStep) : String :=
  if t.mode == "paper2ppt" then "paper2ppt failed" else "paper2figure failed"

/-- Whether the oracle makes this rendering invocation fail. -/
def renderFails (w : World) (pdir : String) (t : RenderStep) : Bool :=
  (w.exec (renderCmd w pdir t)).returncode != 0

/-- The RuntimeError text of a failed rendering invocation. -/
def renderErrText (w : World) (pdir : String) (t : RenderStep) : String :=
  if pyStrip (w.exec (renderCmd w pdir t)).stderr == "" then renderFallback t
  else pyStrip (w.exec (renderCmd w pdir t)).stderr

/-- The warning line logged when one rendering task fails. -/
def renderWarn (w : World) (pdir : String) (t : RenderStep) : String :=
  "  Warning: " ++ t.description ++ " failed: " ++ renderErrText w pdir t

/-- The skip guard of `_render_visuals`: input artifact missing or of
zero size. -/
def renderSkip (fs : List (String × String)) (t : RenderStep) : Bool :=
  !(fsGet fs t.inputFile).isSome || ((fsGet fs t.inputFile).getD "").length == 0

/-- One iteration of `_render_visuals`: skip on a missing/empty input,
else create the output subdirectory, invoke the renderer, absorb a
failure into a warning. -/
def renderStep (w : World) (pdir : String) (t : RenderStep) (s : St) : St :=
  if renderSkip s.fs t then s
  else
    let s1 := { s with dirs := s.dirs ++ ["visuals/" ++ t.subdir],
                       trace := s.trace ++ [renderCmd w pdir t] }
    if renderFails w pdir t then
      { s1 with errLog := s1.errLog ++ [renderWarn w pdir t] }
    else s1

/-- The loop of `_render_visuals` over a list of rendering tasks. -/
def renderSteps (w : World) (pdir : String) : List RenderStep → St → St
  | [], s => s
  | t :: rest, s => renderSteps w pdir rest (renderStep w pdir t s)

/-- `_render_visuals`: create the visuals directory, then process the
fixed task list. -/
def renderVisuals (w : World) (pdir : String) (s : St) : St :=
  renderSteps w pdir PAPER2ANY_STEPS { s with dirs := s.dirs ++ ["visuals"] }

/-- The `_write_index` template, with the interpolation holes of the
source f-string lifted out; the six content filenames stand as their own
concatenation operands (inside the `[name](name)` markdown links they
occur a second time in the neighbouring literal). -/
def indexContent (now nb src : String) : String :=
  "# Investment Process Infographic - Generated Content\n\nGenerated: " ++
  now ++
  "\nNotebook ID: " ++
  nb ++
  "\nSource: investment-process.md\n\n## Generated Files\n\n| File | Description | Infographic Use |\n|------|-------------|-----------------|\n| [" ++
  "01-overview-guide.md" ++
  "](01-overview-guide.md) | Study guide | Content backbone |\n| [" ++
  "02-timeline.md" ++
  "](02-timeline.md) | Process timeline | Timeline / Gantt chart |\n| [" ++
  "03-mindmap.md" ++
  "](03-mindmap.md) | Mindmap | Radial process diagram |\n| [" ++
  "04-briefing-doc.md" ++
  "](04-briefing-doc.md) | Executive briefing | One-page dashboard |\n| [" ++
  "05-faq.md" ++
  "](05-faq.md) | FAQ | Sidebar / callout boxes |\n| [" ++
  "06-outline.md" ++
  "](06-outline.md) | Content outline | Hierarchical structure |\n\n## Paper2Any Visual Outputs\n\nIf generated with `--with-paper2any`, the `visuals/` directory contains:\n\n| Directory | Contents | Source |\n|-----------|----------|--------|\n| `visuals/roadmap/` | Process roadmap (SVG + PPTX) | Timeline |\n| `visuals/architecture/` | Architecture diagram (SVG + PPTX) | Overview guide |\n| `visuals/slides/` | Slide deck (PPTX) | Briefing doc |\n\nPaper2Any: https://github.com/OpenDCAI/Paper2Any\n\n## Interactive Exploration\n\n```bash\n# Chat interactively about the investment process\nnlm chat " ++
  nb ++
  "\n\n# Ask specific questions\nnlm generate-chat " ++
  nb ++
  " \"Compare risk profiles across portfolio types\"\n\n# Generate additional content\nnlm summarize " ++
  nb ++
  " " ++
  src ++
  "\nnlm explain " ++
  nb ++
  " " ++
  src ++
  "\n```\n\n## Cleanup\n\n```bash\nnlm rm " ++
  nb ++
  "\n```\n"

/-- `_write_index`: write the report to its fixed filename.  A write
failure (OSError) escapes to the top-level handler. -/
def writeIndex (w : World) (s : St) : Option PErr × St :=
  writeFile w "00-index.md"
    (indexContent w.now (pyStr s.notebookId) (pyStr s.sourceId)) s

/-- `_print_summary`: console output only, no modelled effect. -/
def printSummary (s : St) : St := s

/-- Resolution of the renderer directory: the explicit argument wins,
else the environment variable, else unresolved. -/
def resolveDir (cfg : Config) (w : World) : Option String :=
  if cfg.paper2anyDirArg != "" then some cfg.paper2anyDirArg
  else if w.envPaperDir != "" then some w.envPaperDir
  else none

def errNotInstalled : List String :=
  ["Error: nlm is not installed.",
   "Install with: go install github.com/tmc/nlm/cmd/nlm@latest"]

def errNoDir : List String :=
  ["Error: Paper2Any directory not set.",
   "Use --paper2any-dir or set PAPER2ANY_DIR env var.",
   "Install: git clone https://github.com/OpenDCAI/Paper2Any.git"]

/-- `_check_prerequisites`: on success returns the resolved renderer
directory; an `Except.error` is `sys.exit(1)`.  The probe spawn of the
primary tool is recorded in the trace only when the executable exists
(otherwise no process was ever started). -/
def checkPrerequisites (cfg : Config) (w : World) (s : St) :
    Except Unit (Option String) × St :=
  if !w.nlmInstalled then
    (Except.error (), { s with errLog := s.errLog ++ errNotInstalled })
  else
    let s := { s with trace := s.trace ++ [["nlm", "help"]] }
    if !w.sourceExists then
      (Except.error (), { s with errLog := s.errLog ++
        ["Error: Source file not found: " ++ sourcePath w] })
    else if cfg.withPaper2any then
      match resolveDir cfg w with
      | none => (Except.error (), { s with errLog := s.errLog ++ errNoDir })
      | some d =>
        if !w.figureCliExists d then
          (Except.error (), { s with errLog := s.errLog ++
            ["Error: Paper2Any not found at: " ++ d,
             "Install: git clone https://github.com/OpenDCAI/Paper2Any.git"] })
        else
          let s := if w.dfApiKey == "" then { s with errLog := s.errLog ++
              ["Warning: DF_API_KEY not set. Paper2Any requires an LLM API key."] }
            else s
          (Except.ok (some d), s)
    else
      (Except.ok (if cfg.paper2anyDirArg == "" then none
                  else some cfg.paper2anyDirArg), s)

/-- `_setup_output_dir`: creates the output directory itself, recorded
as ".". -/
def setupOutputDir (s : St) : St := { s with dirs := s.dirs ++ ["."] }

/-- Exception-propagating sequencing inside the top-level try block. -/
def seqP (r : Option PErr × St) (f : St → Option PErr × St) :
    Option PErr × St :=
  match r with
  | (some e, s) => (some e, s)
  | (none, s) => f s

/-- The body of the top-level try block of `run`. -/
def pipelineBody (cfg : Config) (w : World) (pdir : Option String) (s : St) :
    Option PErr × St :=
  seqP (createNotebook w s) fun s1 =>
  seqP (addSource w s1) fun s2 =>
  seqP (generateAllContent w (waitForProcessing s2)) fun s3 =>
  let s4 := if cfg.skipAudio then s3 else createAudio w s3
  let s5 := if cfg.withPaper2any then renderVisuals w (pyStr pdir) s4 else s4
  seqP (writeIndex w s5) fun s6 => (none, printSummary s6)

/-- `run`: the whole pipeline.  Returns the process exit code and the
final state.  An escaped exception is reported on the error stream
(echoing the session id when a truthy one — Python string truthiness,
so non-empty — was already obtained) and yields exit code 1; so does a
failed prerequisite check. -/
def run (cfg : Config) (w : World) : Nat × St :=
  match checkPrerequisites cfg w initSt with
  | (Except.error _, s) => (1, s)
  | (Except.ok pdir, s0) =>
    let s1 := setupOutputDir s0
    match pipelineBody cfg w pdir s1 with
    | (none, s2) => (0, s2)
    | (some e, s2) =>
      (1, { s2 with errLog := s2.errLog ++
        (["\nError: " ++ errText e] ++
          (if pyTruthy s2.notebookId then
            ["Notebook ID for cleanup: " ++ pyStr s2.notebookId]
           else [])) })

/-! ### Modelled-filesystem lemmas -/

theorem fsGet_filter_ne (fs : List (String × String)) (p q : String)
    (h : q ≠ p) :
    fsGet (fs.filter (fun r => !(r.1 == p))) q = fsGet fs q := by
  induction fs with
  | nil => rfl
  | cons a rest ih =>
    by_cases hap : a.1 = p
    · have hq : (a.1 == q) = false := by
        simp [hap]
        exact fun he => h he.symm
      simp [List.filter_cons, hap, fsGet, hq, ih, Ne.symm h]
    · simp [List.filter_cons, hap, fsGet, ih]

theorem fsGet_fsSet_self (fs : List (String × String)) (p c : String) :
    fsGet (fsSet fs p c) p = some c := by
  simp [fsSet, fsGet]

theorem fsGet_fsSet_ne (fs : List (String × String)) (p c q : String)
    (h : q ≠ p) :
    fsGet (fsSet fs p c) q = fsGet fs q := by
  have hq : (p == q) = false := by
    simp
    exact fun he => h he.symm
  simp [fsSet, fsGet, hq, fsGet_filter_ne fs p q h]

/-! ### Substring occurrence -/

/-- `pat` occurs somewhere inside `s`. -/
def occursIn (pat s : String) : Prop := ∃ a b, s = a ++ pat ++ b

theorem occursIn_self (p : String) : occursIn p p :=
  ⟨"", "", by simp⟩

theorem occursIn_right (p s t : String) (h : occursIn p s) :
    occursIn p (s ++ t) := by
  obtain ⟨a, b, hb⟩ := h
  exact ⟨a, b ++ t, by rw [hb]; simp [String.append_assoc]⟩

theorem occursIn_left (p s t : String) (h : occursIn p s) :
    occursIn p (t ++ s) := by
  obtain ⟨a, b, hb⟩ := h
  exact ⟨t ++ a, b, by rw [hb]; simp [String.append_assoc]⟩

/-! ### Per-step characterizations of the generation loop -/

/-- The notebook-creation command. -/
def createCmd : List String := ["nlm", "create", notebookTitle]

/-- The session id obtained when creation succeeds. -/
def nbOut (w : World) : String := pyStrip (w.exec createCmd).stdout

/-- The add-source command (in the run it always receives the session id
obtained from creation). -/
def addCmd (w : World) : List String := ["nlm", "add", nbOut w, sourcePath w]

/-- The source id obtained when registration succeeds. -/
def srcOut (w : World) : String := pyStrip (w.exec (addCmd w)).stdout

/-- The audio-creation command of the run. -/
def audioCmd (w : World) : List String :=
  ["nlm", "audio-create", nbOut w, audioPrompt]

def audioFails (w : World) : Bool := (w.exec (audioCmd w)).returncode != 0

theorem genStep_fail (w : World) (nb src : String) (st : GenStep) (s : St)
    (hf : genFails w nb src st = true) :
    genStep w nb src st s = (none, { s with
      errLog := s.errLog ++ [genWarn w nb src st],
      trace := s.trace ++ [genCmd st nb src] }) := by
  simp only [genFails, genCmd] at hf
  simp [genStep, nlmCall, hf, genWarn, genCmd, nlmFailMsg]

theorem genStep_ok (w : World) (nb src : String) (st : GenStep) (s : St)
    (hf : genFails w nb src st = false)
    (hw : w.writeFails st.filename = false) :
    genStep w nb src st s = (none, { s with
      fs := fsSet s.fs st.filename (genOut w nb src st),
      trace := s.trace ++ [genCmd st nb src] }) := by
  simp only [genFails, genCmd] at hf
  simp [genStep, nlmCall, hf, writeFile, hw, genOut, genCmd]

theorem genStep_wfail (w : World) (nb src : String) (st : GenStep) (s : St)
    (hf : genFails w nb src st = false)
    (hw : w.writeFails st.filename = true) :
    genStep w nb src st s = (some (PErr.osErr (w.osMsg st.filename)),
      { s with trace := s.trace ++ [genCmd st nb src] }) := by
  simp only [genFails, genCmd] at hf
  simp [genStep, nlmCall, hf, writeFile, hw, genCmd]

/-- The filesystem after the generation loop: each successful task's
output written at its fixed filename in order. -/
def fsAfterGen (w : World) (nb src : String) (l : List GenStep)
    (fs : List (String × String)) : List (String × String) :=
  l.foldl (fun acc st => if genFails w nb src st then acc
                         else fsSet acc st.filename (genOut w nb src st)) fs

/-- When no relevant file write fails, the generation loop never raises:
it writes exactly the successful tasks' outputs, logs exactly one warning
per failed task (in task order), and spawns every task's command in the
fixed order. -/
theorem genSteps_ok (w : World) (nb src : String) (l : List GenStep) :
    ∀ s : St, (∀ st ∈ l, w.writeFails st.filename = false) →
    genSteps w nb src l s = (none, { s with
      fs := fsAfterGen w nb src l s.fs,
      errLog := s.errLog ++
        (l.filter (fun st => genFails w nb src st)).map (genWarn w nb src),
      trace := s.trace ++ l.map (fun st => genCmd st nb src) }) := by
  induction l with
  | nil => intro s _; simp [genSteps, fsAfterGen]
  | cons st rest ih =>
    intro s h
    have hst : w.writeFails st.filename = false := h st (by simp)
    have hrest : ∀ u ∈ rest, w.writeFails u.filename = false :=
      fun u hu => h u (by simp [hu])
    by_cases hf : genFails w nb src st
    · simp only [genSteps, genStep_fail w nb src st s hf]
      rw [ih _ hrest]
      simp [fsAfterGen, hf, List.filter_cons, List.append_assoc]
    · simp only [genSteps, genStep_ok w nb src st s (by simpa using hf) hst]
      rw [ih _ hrest]
      simp [fsAfterGen, hf, List.filter_cons, List.append_assoc]

theorem fsAfterGen_cons (w : World) (nb src : String) (st : GenStep)
    (rest : List GenStep) (fs : List (String × String)) :
    fsAfterGen w nb src (st :: rest) fs =
      fsAfterGen w nb src rest
        (if genFails w nb src st then fs
         else fsSet fs st.filename (genOut w nb src st)) := rfl

theorem fsAfterGen_get_notmem (w : World) (nb src : String)
    (l : List GenStep) (f : String) (h : ∀ st ∈ l, st.filename ≠ f) :
    ∀ fs, fsGet (fsAfterGen w nb src l fs) f = fsGet fs f := by
  induction l with
  | nil => intro fs; rfl
  | cons a rest ih =>
    intro fs
    have h1 : a.filename ≠ f := h a (by simp)
    have h2 : ∀ u ∈ rest, u.filename ≠ f := fun u hu => h u (by simp [hu])
    rw [fsAfterGen_cons, ih h2]
    by_cases hf : genFails w nb src a
    · simp [hf]
    · simp [hf, fsGet_fsSet_ne _ _ _ _ (Ne.symm h1)]

theorem fsAfterGen_get_success (w : World) (nb src : String)
    (l : List GenStep) (st : GenStep) (hmem : st ∈ l)
    (hnodup : (l.map GenStep.filename).Nodup)
    (hf : genFails w nb src st = false) :
    ∀ fs, fsGet (fsAfterGen w nb src l fs) st.filename
      = some (genOut w nb src st) := by
  induction l with
  | nil => cases hmem
  | cons a rest ih =>
    intro fs
    rw [fsAfterGen_cons]
    rcases List.mem_cons.mp hmem with he | hm
    · subst he
      have hhead : st.filename ∉ rest.map GenStep.filename :=
        (List.nodup_cons.mp hnodup).1
      have hnot : ∀ u ∈ rest, u.filename ≠ st.filename := by
        intro u hu hequ
        exact hhead (hequ ▸ List.mem_map_of_mem GenStep.filename hu)
      rw [if_neg (by simp [hf])]
      rw [fsAfterGen_get_notmem w nb src rest st.filename hnot]
      exact fsGet_fsSet_self _ _ _
    · exact ih hm (List.nodup_cons.mp hnodup).2 _

theorem fsAfterGen_get_failed (w : World) (nb src : String)
    (l : List GenStep) (st : GenStep) (hmem : st ∈ l)
    (hnodup : (l.map GenStep.filename).Nodup)
    (hf : genFails w nb src st = true) :
    ∀ fs, fsGet (fsAfterGen w nb src l fs) st.filename
      = fsGet fs st.filename := by
  induction l with
  | nil => cases hmem
  | cons a rest ih =>
    intro fs
    rw [fsAfterGen_cons]
    rcases List.mem_cons.mp hmem with he | hm
    · subst he
      have hhead : st.filename ∉ rest.map GenStep.filename :=
        (List.nodup_cons.mp hnodup).1
      have hnot : ∀ u ∈ rest, u.filename ≠ st.filename := by
        intro u hu hequ
        exact hhead (hequ ▸ List.mem_map_of_mem GenStep.filename hu)
      rw [fsAfterGen_get_notmem w nb src rest st.filename hnot]
      simp [hf]
    · have hane : st.filename ≠ a.filename := by
        intro he
        exact (List.nodup_cons.mp hnodup).1
          (he ▸ List.mem_map_of_mem GenStep.filename hm)
      rw [ih hm (List.nodup_cons.mp hnodup).2]
      by_cases hfa : genFails w nb src a
      · simp [hfa]
      · simp [hfa, fsGet_fsSet_ne _ _ _ _ hane]

/-- Aborting run of the generation loop: tasks before `j` either fail
their subcommand (absorbed as a warning) or write successfully; `j`'s
subcommand succeeds but writing its output raises, and the OSError
escapes the loop with all later tasks unprocessed. -/
theorem genSteps_abort (w : World) (nb src : String) (l1 : List GenStep) :
    ∀ (j : GenStep) (l2 : List GenStep) (s : St),
    (∀ st ∈ l1, genFails w nb src st = true ∨ w.writeFails st.filename = false) →
    genFails w nb src j = false → w.writeFails j.filename = true →
    genSteps w nb src (l1 ++ j :: l2) s =
      (some (PErr.osErr (w.osMsg j.filename)), { s with
        fs := fsAfterGen w nb src l1 s.fs,
        errLog := s.errLog ++
          (l1.filter (fun st => genFails w nb src st)).map (genWarn w nb src),
        trace := s.trace ++ (l1 ++ [j]).map (fun st => genCmd st nb src) }) := by
  induction l1 with
  | nil =>
    intro j l2 s _ hjf hjw
    simp only [List.nil_append, genSteps, genStep_wfail w nb src j s hjf hjw]
    simp [fsAfterGen]
  | cons st rest ih =>
    intro j l2 s h hjf hjw
    have hst := h st (by simp)
    have hrest : ∀ u ∈ rest,
        genFails w nb src u = true ∨ w.writeFails u.filename = false :=
      fun u hu => h u (by simp [hu])
    rcases hst with hf | hw
    · simp only [List.cons_append, genSteps, List.append_eq,
        genStep_fail w nb src st s hf]
      rw [ih j l2 _ hrest hjf hjw]
      simp [fsAfterGen_cons, hf, List.filter_cons, List.append_assoc]
    · by_cases hf : genFails w nb src st
      · simp only [List.cons_append, genSteps, List.append_eq,
          genStep_fail w nb src st s hf]
        rw [ih j l2 _ hrest hjf hjw]
        simp [fsAfterGen_cons, hf, List.filter_cons, List.append_assoc]
      · simp only [List.cons_append, genSteps, List.append_eq,
          genStep_ok w nb src st s (by simpa using hf) hw]
        rw [ih j l2 _ hrest hjf hjw]
        simp [fsAfterGen_cons, hf, List.filter_cons, List.append_assoc]

/-! ### Characterizations of the rendering loop -/

theorem renderStep_skip (w : World) (pdir : String) (t : RenderStep) (s : St)
    (hsk : renderSkip s.fs t = true) : renderStep w pdir t s = s := by
  simp [renderStep, hsk]

theorem renderStep_ok (w : World) (pdir : String) (t : RenderStep) (s : St)
    (hsk : renderSkip s.fs t = false) (hr : renderFails w pdir t = false) :
    renderStep w pdir t s = { s with
      dirs := s.dirs ++ ["visuals/" ++ t.subdir],
      trace := s.trace ++ [renderCmd w pdir t] } := by
  simp [renderStep, hsk, hr]

theorem renderStep_fail (w : World) (pdir : String) (t : RenderStep) (s : St)
    (hsk : renderSkip s.fs t = false) (hr : renderFails w pdir t = true) :
    renderStep w pdir t s = { s with
      dirs := s.dirs ++ ["visuals/" ++ t.subdir],
      trace := s.trace ++ [renderCmd w pdir t],
      errLog := s.errLog ++ [renderWarn w pdir t] } := by
  simp [renderStep, hsk, hr]

/-- The rendering loop: skipped tasks (missing or empty input) leave no
mark at all; each non-skipped task is invoked in the fixed order, gets
its output subdirectory created, and contributes one warning exactly
when its invocation fails.  The modelled filesystem never changes. -/
theorem renderSteps_spec (w : World) (pdir : String) (l : List RenderStep) :
    ∀ s : St, renderSteps w pdir l s = { s with
      errLog := s.errLog ++ (l.filter
        (fun t => !renderSkip s.fs t && renderFails w pdir t)).map
          (renderWarn w pdir),
      trace := s.trace ++
        (l.filter (fun t => !renderSkip s.fs t)).map (renderCmd w pdir),
      dirs := s.dirs ++ (l.filter (fun t => !renderSkip s.fs t)).map
        (fun t => "visuals/" ++ t.subdir) } := by
  induction l with
  | nil => intro s; simp [renderSteps]
  | cons t rest ih =>
    intro s
    by_cases hsk : renderSkip s.fs t
    · rw [renderSteps, renderStep_skip w pdir t s hsk, ih]
      simp [List.filter_cons, hsk]
    · have hsk' : renderSkip s.fs t = false := by simpa using hsk
      by_cases hr : renderFails w pdir t
      · rw [renderSteps, renderStep_fail w pdir t s hsk' hr, ih]
        simp [List.filter_cons, hsk', hr, List.append_assoc]
      · have hr' : renderFails w pdir t = false := by simpa using hr
        rw [renderSteps, renderStep_ok w pdir t s hsk' hr', ih]
        simp [List.filter_cons, hsk', hr', List.append_assoc]

/-! ### Characterizations of the session stages -/

theorem createNotebook_fail (w : World) (s : St)
    (h : (w.exec createCmd).returncode ≠ 0) :
    createNotebook w s =
      (some (PErr.runtimeErr (nlmFailMsg w ["create", notebookTitle])),
       { s with trace := s.trace ++ [createCmd] }) := by
  simp only [createCmd] at h
  simp [createNotebook, nlmCall, createCmd, h]

theorem createNotebook_ok (w : World) (s : St)
    (h : (w.exec createCmd).returncode = 0)
    (hw : w.writeFails "notebook-id.txt" = false) :
    createNotebook w s = (none, { s with
      fs := fsSet s.fs "notebook-id.txt" (nbOut w),
      trace := s.trace ++ [createCmd],
      notebookId := some (nbOut w) }) := by
  simp only [createCmd] at h
  simp [createNotebook, nlmCall, createCmd, h, writeFile, hw, nbOut]

theorem addSource_fail (w : World) (s : St)
    (hnb : s.notebookId = some (nbOut w))
    (h : (w.exec (addCmd w)).returncode ≠ 0) :
    addSource w s =
      (some (PErr.runtimeErr (nlmFailMsg w ["add", nbOut w, sourcePath w])),
       { s with trace := s.trace ++ [addCmd w] }) := by
  simp only [addCmd] at h
  simp [addSource, nlmCall, addCmd, hnb, pyStr, h]

theorem addSource_ok (w : World) (s : St)
    (hnb : s.notebookId = some (nbOut w))
    (h : (w.exec (addCmd w)).returncode = 0)
    (hw : w.writeFails "source-id.txt" = false) :
    addSource w s = (none, { s with
      fs := fsSet s.fs "source-id.txt" (srcOut w),
      trace := s.trace ++ [addCmd w],
      sourceId := some (srcOut w) }) := by
  simp only [addCmd] at h
  simp [addSource, nlmCall, addCmd, hnb, pyStr, h, writeFile, hw, srcOut]

theorem createAudio_spec (w : World) (s : St)
    (hnb : s.notebookId = some (nbOut w)) :
    createAudio w s = { s with
      trace := s.trace ++ [audioCmd w],
      errLog := s.errLog ++
        (if audioFails w then
          ["  Warning: Audio creation failed: " ++
            nlmFailMsg w ["audio-create", nbOut w, audioPrompt]]
         else []) } := by
  by_cases ha : audioFails w
  · simp only [audioFails, audioCmd] at ha
    simp [createAudio, nlmCall, hnb, pyStr, ha, audioFails, audioCmd]
  · have ha' : ((w.exec (audioCmd w)).returncode != 0) = false := by
      simpa [audioFails] using ha
    simp only [audioCmd] at ha'
    simp [createAudio, nlmCall, hnb, pyStr, ha', audioFails, audioCmd,
      List.append_nil]

/-! ### Whole-run characterizations -/

theorem checkPrerequisites_ok_simple (cfg : Config) (w : World) (s : St)
    (h1 : w.nlmInstalled = true) (h2 : w.sourceExists = true)
    (h3 : cfg.withPaper2any = false) :
    checkPrerequisites cfg w s =
      (Except.ok (if cfg.paper2anyDirArg == "" then none
                  else some cfg.paper2anyDirArg),
       { s with trace := s.trace ++ [["nlm", "help"]] }) := by
  simp [checkPrerequisites, h1, h2, h3]

/-- Warnings contributed by the generation stage of a run whose session
ids are the ones obtained from creation/registration. -/
def genWarnList (w : World) : List String :=
  (GENERATION_STEPS.filter (fun st => genFails w (nbOut w) (srcOut w) st)).map
    (genWarn w (nbOut w) (srcOut w))

/-- The spawned generation commands of such a run, in fixed order. -/
def genTraceList (w : World) : List (List String) :=
  GENERATION_STEPS.map (fun st => genCmd st (nbOut w) (srcOut w))

/-- The filesystem produced by the generation stage of such a run,
on top of the two persisted id files. -/
def fsAfterRun (w : World) : List (String × String) :=
  fsAfterGen w (nbOut w) (srcOut w) GENERATION_STEPS
    (fsSet (fsSet [] "notebook-id.txt" (nbOut w)) "source-id.txt" (srcOut w))

def audioWarnList (cfg : Config) (w : World) : List String :=
  if cfg.skipAudio then []
  else if audioFails w then
    ["  Warning: Audio creation failed: " ++
      nlmFailMsg w ["audio-create", nbOut w, audioPrompt]]
  else []

def audioTraceList (cfg : Config) (w : World) : List (List String) :=
  if cfg.skipAudio then [] else [audioCmd w]

/-- The normal-path characterization of a full run (renderer disabled):
prerequisites hold, session creation and source registration succeed,
no file write fails.  Generation subcommands may fail arbitrarily; the
run still exits 0 with the state assembled from the stage
characterizations. -/
theorem run_normal (cfg : Config) (w : World)
    (h1 : w.nlmInstalled = true) (h2 : w.sourceExists = true)
    (h3 : cfg.withPaper2any = false)
    (hc : (w.exec createCmd).returncode = 0)
    (ha : (w.exec (addCmd w)).returncode = 0)
    (hw : ∀ p, w.writeFails p = false) :
    run cfg w = (0, {
      fs := fsSet (fsAfterRun w) "00-index.md"
        (indexContent w.now (nbOut w) (srcOut w)),
      errLog := genWarnList w ++ audioWarnList cfg w,
      trace := [["nlm", "help"], createCmd, addCmd w] ++ genTraceList w ++
        audioTraceList cfg w,
      dirs := ["."],
      notebookId := some (nbOut w),
      sourceId := some (srcOut w) }) := by
  have hgw : ∀ st ∈ GENERATION_STEPS, w.writeFails st.filename = false :=
    fun st _ => hw st.filename
  rw [run]
  rw [checkPrerequisites_ok_simple cfg w initSt h1 h2 h3]
  simp only [initSt, List.nil_append, setupOutputDir, pipelineBody]
  rw [createNotebook_ok w _ hc (hw _)]
  simp only [seqP]
  rw [addSource_ok w _ rfl ha (hw _)]
  simp only [seqP, waitForProcessing, generateAllContent, pyStr]
  rw [genSteps_ok w (nbOut w) (srcOut w) GENERATION_STEPS _ hgw]
  simp only [seqP]
  by_cases hsk : cfg.skipAudio
  · simp only [hsk, if_true, h3, Bool.false_eq_true, if_false, writeIndex,
      writeFile, hw "00-index.md", Bool.false_eq_true, if_false,
      printSummary, seqP, pyStr]
    simp [fsAfterRun, genWarnList, genTraceList, audioWarnList,
      audioTraceList, hsk, h3, List.append_assoc]
  · simp only [hsk, Bool.false_eq_true, if_false]
    rw [createAudio_spec w _ rfl]
    simp only [h3, Bool.false_eq_true, if_false, writeIndex, writeFile,
      hw "00-index.md", printSummary, seqP, pyStr]
    by_cases haf : audioFails w
    · simp [fsAfterRun, genWarnList, genTraceList, audioWarnList,
        audioTraceList, hsk, haf, h3, List.append_assoc]
    · simp [fsAfterRun, genWarnList, genTraceList, audioWarnList,
        audioTraceList, hsk, haf, h3, List.append_assoc]

/-- Every hole and every content filename of the index template occurs
in the rendered index document. -/
theorem indexContent_occurs (now nb src : String) :
    occursIn nb (indexContent now nb src) ∧
    occursIn src (indexContent now nb src) ∧
    occursIn "01-overview-guide.md" (indexContent now nb src) ∧
    occursIn "02-timeline.md" (indexContent now nb src) ∧
    occursIn "03-mindmap.md" (indexContent now nb src) ∧
    occursIn "04-briefing-doc.md" (indexContent now nb src) ∧
    occursIn "05-faq.md" (indexContent now nb src) ∧
    occursIn "06-outline.md" (indexContent now nb src) := by
  unfold indexContent
  refine ⟨?_, ?_, ?_, ?_, ?_, ?_, ?_, ?_⟩ <;>
    repeat
      first
        | exact occursIn_left _ _ _ (occursIn_self _)
        | apply occursIn_right

/-! ### The claims -/

/-- C2: the command runner, given an executable name and an ordered
argument list, returns the trimmed standard output when the spawned
process exits with status 0, and fails with the ExecutionError carrying
the trimmed standard error text (returning no value) when the exit
status is non-zero. -/
theorem claim_C2 (w : World) (args : List String) (s : St) :
    ((w.exec ("nlm" :: args)).returncode = 0 →
      (nlmCall w args s).1 =
        Except.ok (pyStrip (w.exec ("nlm" :: args)).stdout)) ∧
    ((w.exec ("nlm" :: args)).returncode ≠ 0 →
      (nlmCall w args s).1 =
        Except.error ("nlm " ++ String.intercalate " " args ++ " failed: " ++
          pyStrip (w.exec ("nlm" :: args)).stderr)) := by
  constructor
  · intro h
    simp [nlmCall, h]
  · intro h
    simp [nlmCall, h, nlmFailMsg]

/-- A base oracle for concrete witnesses: every spawn succeeds with
output `" id "`, no write fails. -/
def wBase : World where
  exec := fun _ => ⟨0, " id ", ""⟩
  writeFails := fun _ => false
  osMsg := fun p => p
  nlmInstalled := true
  sourceExists := true
  figureCliExists := fun _ => true
  envPaperDir := ""
  dfApiKey := "key"
  scriptDir := "."
  pyExe := "py"
  now := "2026-01-01 00:00:00"

/-- An oracle whose every spawn fails with stderr `" boom "`. -/
def wExecFail : World :=
  { wBase with exec := fun _ => ⟨1, "", " boom "⟩ }

theorem claim_C2_witness :
    (nlmCall wBase ["create"] initSt).1 = Except.ok "id" ∧
    (nlmCall wExecFail ["create"] initSt).1 =
      Except.error "nlm create failed: boom" := by
  constructor
  · have h := (claim_C2 wBase ["create"] initSt).1 (by decide)
    rw [h]
    rfl
  · have h := (claim_C2 wExecFail ["create"] initSt).2 (by decide)
    rw [h]
    rfl

/-- C7: the index file written by the reporting stage records the full
rendered template, which lists all six expected content filenames and
both the session (notebook) id and the source id — independent of which
generation, audio, or rendering steps succeeded, since it is written
from the template and the two ids alone. -/
theorem claim_C7 (w : World) (s : St)
    (hw : w.writeFails "00-index.md" = false) :
    fsGet (writeIndex w s).2.fs "00-index.md" =
      some (indexContent w.now (pyStr s.notebookId) (pyStr s.sourceId)) ∧
    (∀ f ∈ ["01-overview-guide.md", "02-timeline.md", "03-mindmap.md",
            "04-briefing-doc.md", "05-faq.md", "06-outline.md"],
      occursIn f
        (indexContent w.now (pyStr s.notebookId) (pyStr s.sourceId))) ∧
    occursIn (pyStr s.notebookId)
      (indexContent w.now (pyStr s.notebookId) (pyStr s.sourceId)) ∧
    occursIn (pyStr s.sourceId)
      (indexContent w.now (pyStr s.notebookId) (pyStr s.sourceId)) := by
  have ho := indexContent_occurs w.now (pyStr s.notebookId) (pyStr s.sourceId)
  refine ⟨?_, ?_, ho.1, ho.2.1⟩
  · simp [writeIndex, writeFile, hw, fsGet_fsSet_self]
  · intro f hf
    fin_cases hf
    · exact ho.2.2.1
    · exact ho.2.2.2.1
    · exact ho.2.2.2.2.1
    · exact ho.2.2.2.2.2.1
    · exact ho.2.2.2.2.2.2.1
    · exact ho.2.2.2.2.2.2.2

theorem claim_C7_witness :
    fsGet (writeIndex wBase { initSt with
        notebookId := some "nb-1", sourceId := some "src-1" }).2.fs
      "00-index.md" =
      some (indexContent "2026-01-01 00:00:00" "nb-1" "src-1") ∧
    occursIn "nb-1" (indexContent "2026-01-01 00:00:00" "nb-1" "src-1") ∧
    occursIn "02-timeline.md"
      (indexContent "2026-01-01 00:00:00" "nb-1" "src-1") := by
  have h := claim_C7 wBase
    { initSt with notebookId := some "nb-1", sourceId := some "src-1" } rfl
  exact ⟨h.1, h.2.2.1, h.2.1 "02-timeline.md" (by simp)⟩

/-- C5: the generation driver processes the tasks in the fixed list
order; each invocation receives the session id, and additionally the
source id exactly when the task's needs-source flag is set (visible in
the explicit spawned-command list); on subcommand success the returned
text is written verbatim to that task's fixed output filename. -/
theorem claim_C5 (w : World) (nb src : String) (s : St)
    (hw : ∀ st ∈ GENERATION_STEPS, w.writeFails st.filename = false) :
    (genSteps w nb src GENERATION_STEPS s).2.trace = s.trace ++
      [["nlm", "generate-guide", nb],
       ["nlm", "timeline", nb, src],
       ["nlm", "mindmap", nb, src],
       ["nlm", "briefing-doc", nb, src],
       ["nlm", "faq", nb, src],
       ["nlm", "outline", nb, src]] ∧
    (∀ st ∈ GENERATION_STEPS, genFails w nb src st = false →
      fsGet (genSteps w nb src GENERATION_STEPS s).2.fs st.filename =
        some (pyStrip (w.exec (genCmd st nb src)).stdout)) := by
  rw [genSteps_ok w nb src GENERATION_STEPS s hw]
  constructor
  · simp [GENERATION_STEPS, genCmd, genArgs]
  · intro st hst hf
    exact fsAfterGen_get_success w nb src GENERATION_STEPS st hst
      (by decide) hf s.fs

theorem claim_C5_witness :
    (genSteps wBase "nb" "src" GENERATION_STEPS initSt).2.trace =
      [["nlm", "generate-guide", "nb"],
       ["nlm", "timeline", "nb", "src"],
       ["nlm", "mindmap", "nb", "src"],
       ["nlm", "briefing-doc", "nb", "src"],
       ["nlm", "faq", "nb", "src"],
       ["nlm", "outline", "nb", "src"]] ∧
    fsGet (genSteps wBase "nb" "src" GENERATION_STEPS initSt).2.fs
      "03-mindmap.md" = some "id" := by
  have h := claim_C5 wBase "nb" "src" initSt (fun st _ => rfl)
  constructor
  · exact h.1
  · have h3 := h.2 ⟨"03-mindmap.md", "mindmap", "Interactive process mindmap",
      true⟩ (by decide) (by decide)
    rw [h3]
    rfl

/-- C1: in a run whose prerequisites hold, whose session setup succeeds
and whose file writes all succeed, any subset of generation subcommands
may fail: the run still exits 0, every successful task's output file is
produced (and no failed task's file appears), the error stream carries
exactly one warning per failed task in task order — each referencing the
failed task's description — and the driver still spawns every task's
command in the fixed order. -/
theorem claim_C1 (cfg : Config) (w : World)
    (h1 : w.nlmInstalled = true) (h2 : w.sourceExists = true)
    (h3 : cfg.withPaper2any = false)
    (hc : (w.exec createCmd).returncode = 0)
    (ha : (w.exec (addCmd w)).returncode = 0)
    (hw : ∀ p, w.writeFails p = false) :
    (run cfg w).1 = 0 ∧
    (∀ st ∈ GENERATION_STEPS, genFails w (nbOut w) (srcOut w) st = false →
      fsGet (run cfg w).2.fs st.filename =
        some (genOut w (nbOut w) (srcOut w) st)) ∧
    (∀ st ∈ GENERATION_STEPS, genFails w (nbOut w) (srcOut w) st = true →
      fsGet (run cfg w).2.fs st.filename = none) ∧
    (run cfg w).2.errLog = genWarnList w ++ audioWarnList cfg w ∧
    (∀ st ∈ GENERATION_STEPS,
      occursIn st.description (genWarn w (nbOut w) (srcOut w) st)) ∧
    (run cfg w).2.trace = [["nlm", "help"], createCmd, addCmd w] ++
      genTraceList w ++ audioTraceList cfg w := by
  rw [run_normal cfg w h1 h2 h3 hc ha hw]
  refine ⟨rfl, ?_, ?_, rfl, ?_, rfl⟩
  · intro st hst hf
    have hne : st.filename ≠ "00-index.md" := by
      fin_cases hst <;> decide
    rw [fsGet_fsSet_ne _ _ _ _ hne, fsAfterRun]
    exact fsAfterGen_get_success w (nbOut w) (srcOut w) GENERATION_STEPS st
      hst (by decide) hf _
  · intro st hst hf
    have hne : st.filename ≠ "00-index.md" := by
      fin_cases hst <;> decide
    rw [fsGet_fsSet_ne _ _ _ _ hne, fsAfterRun]
    rw [fsAfterGen_get_failed w (nbOut w) (srcOut w) GENERATION_STEPS st
      hst (by decide) hf]
    have hne1 : st.filename ≠ "source-id.txt" := by
      fin_cases hst <;> decide
    have hne2 : st.filename ≠ "notebook-id.txt" := by
      fin_cases hst <;> decide
    rw [fsGet_fsSet_ne _ _ _ _ hne1, fsGet_fsSet_ne _ _ _ _ hne2]
    rfl
  · intro st _
    unfold genWarn
    apply occursIn_right
    apply occursIn_right
    exact occursIn_left _ _ _ (occursIn_self _)

/-- An oracle where exactly the `timeline` generation subcommand fails
(stderr `" boom "`) and every other spawn succeeds with output `" id "`. -/
def wOneFail : World :=
  { wBase with exec := fun c =>
      if c.get? 1 = some "timeline" then ⟨1, "", " boom "⟩
      else ⟨0, " id ", ""⟩ }

/-- A configuration with audio skipped and the renderer disabled. -/
def cfgPlain : Config := ⟨true, false, ""⟩

theorem claim_C1_witness :
    (run cfgPlain wOneFail).1 = 0 ∧
    fsGet (run cfgPlain wOneFail).2.fs "01-overview-guide.md" = some "id" ∧
    fsGet (run cfgPlain wOneFail).2.fs "02-timeline.md" = none ∧
    (run cfgPlain wOneFail).2.errLog =
      ["  Warning: Investment process timeline generation failed: " ++
        "nlm timeline id id failed: boom"] := by
  have h := claim_C1 cfgPlain wOneFail rfl rfl rfl (by decide) (by decide)
    (fun p => rfl)
  refine ⟨h.1, ?_, ?_, ?_⟩
  · have := h.2.1 ⟨"01-overview-guide.md", "generate-guide",
      "Structured overview guide", false⟩ (by decide) (by decide)
    rw [this]
    rfl
  · exact h.2.2.1 ⟨"02-timeline.md", "timeline",
      "Investment process timeline", true⟩ (by decide) (by decide)
  · rw [h.2.2.2.1]
    rfl

/-- C3: in every fatal-precondition case — tool absent, source document
absent, or (when rendering is requested) renderer directory unresolved
or its entry script absent — the run exits 1, no session id is ever
obtained, and no spawned command mentions the session-creation
subcommand. -/
theorem claim_C3 (cfg : Config) (w : World)
    (h : w.nlmInstalled = false ∨ w.sourceExists = false ∨
      (cfg.withPaper2any = true ∧ (resolveDir cfg w = none ∨
        ∃ d, resolveDir cfg w = some d ∧ w.figureCliExists d = false))) :
    (run cfg w).1 = 1 ∧
    (run cfg w).2.notebookId = none ∧
    (run cfg w).2.trace.all (fun c => !c.contains "create") = true := by
  have hfatal : ∃ L, checkPrerequisites cfg w initSt =
      (Except.error (), {
        fs := []
        errLog := L
        trace := if w.nlmInstalled then [["nlm", "help"]] else []
        dirs := []
        notebookId := none
        sourceId := none }) := by
    by_cases hi : w.nlmInstalled
    · by_cases hs : w.sourceExists
      · have hp : cfg.withPaper2any = true ∧ (resolveDir cfg w = none ∨
            ∃ d, resolveDir cfg w = some d ∧ w.figureCliExists d = false) := by
          rcases h with h | h | h
          · exact absurd h (by simp [hi])
          · exact absurd h (by simp [hs])
          · exact h
        obtain ⟨hp2, hd⟩ := hp
        rcases hd with hnone | ⟨d, hdd, hcli⟩
        · exact ⟨errNoDir, by simp [checkPrerequisites, hi, hs, hp2, hnone,
            initSt]⟩
        · exact ⟨["Error: Paper2Any not found at: " ++ d,
            "Install: git clone https://github.com/OpenDCAI/Paper2Any.git"],
            by simp [checkPrerequisites, hi, hs, hp2, hdd, hcli, initSt]⟩
      · exact ⟨["Error: Source file not found: " ++ sourcePath w],
          by simp [checkPrerequisites, hi, hs, initSt]⟩
    · exact ⟨errNotInstalled, by simp [checkPrerequisites, hi, initSt]⟩
  obtain ⟨L, hL⟩ := hfatal
  have hrun : run cfg w = (1, {
      fs := []
      errLog := L
      trace := if w.nlmInstalled then [["nlm", "help"]] else []
      dirs := []
      notebookId := none
      sourceId := none }) := by
    simp only [run, hL]
  rw [hrun]
  refine ⟨rfl, rfl, ?_⟩
  by_cases hi : w.nlmInstalled <;> simp [hi]

/-- An oracle where the primary tool executable is absent. -/
def wNoTool : World := { wBase with nlmInstalled := false }

theorem claim_C3_witness :
    (run cfgPlain wNoTool).1 = 1 ∧
    (run cfgPlain wNoTool).2.notebookId = none := by
  have h := claim_C3 cfgPlain wNoTool (Or.inl rfl)
  exact ⟨h.1, h.2.1⟩

/-- C4: when session creation or source registration fails, the run
exits 1 with the diagnostic on the error stream; the diagnostic echoes
the session id for manual cleanup exactly when a truthy one had already
been obtained — i.e. when creation succeeded and registration failed
and the obtained id is non-empty (an id stripping to the empty string
is falsy for the Python guard, so it is not echoed). -/
theorem claim_C4 (cfg : Config) (w : World)
    (h1 : w.nlmInstalled = true) (h2 : w.sourceExists = true)
    (h3 : cfg.withPaper2any = false)
    (hw : ∀ p, w.writeFails p = false)
    (h : (w.exec createCmd).returncode ≠ 0 ∨
      ((w.exec createCmd).returncode = 0 ∧
        (w.exec (addCmd w)).returncode ≠ 0)) :
    (run cfg w).1 = 1 ∧
    (run cfg w).2.errLog =
      (if (w.exec createCmd).returncode = 0 then
        ["\nError: " ++ nlmFailMsg w ["add", nbOut w, sourcePath w]] ++
          (if nbOut w = "" then []
           else ["Notebook ID for cleanup: " ++ nbOut w])
       else
        ["\nError: " ++ nlmFailMsg w ["create", notebookTitle]]) := by
  rcases h with hc | ⟨hc, ha⟩
  · rw [run, checkPrerequisites_ok_simple cfg w initSt h1 h2 h3]
    simp only [initSt, List.nil_append, setupOutputDir, pipelineBody]
    rw [createNotebook_fail w _ hc]
    simp only [seqP, errText]
    rw [if_neg hc]
    simp [pyTruthy]
  · rw [run, checkPrerequisites_ok_simple cfg w initSt h1 h2 h3]
    simp only [initSt, List.nil_append, setupOutputDir, pipelineBody]
    rw [createNotebook_ok w _ hc (hw _)]
    simp only [seqP]
    rw [addSource_fail w _ rfl ha]
    simp only [seqP, errText]
    rw [if_pos hc]
    by_cases hnb : nbOut w = "" <;> simp [pyTruthy, pyStr, hnb]

/-- An oracle where exactly the `create` subcommand fails. -/
def wCreateFail : World :=
  { wBase with exec := fun c =>
      if c.get? 1 = some "create" then ⟨1, "", " no auth "⟩
      else ⟨0, " id ", ""⟩ }

theorem claim_C4_witness :
    (run cfgPlain wCreateFail).1 = 1 ∧
    (run cfgPlain wCreateFail).2.errLog =
      ["\nError: nlm create Investment Process Infographic failed: no auth"] := by
  have h := claim_C4 cfgPlain wCreateFail rfl rfl rfl (fun p => rfl)
    (Or.inl (by decide))
  refine ⟨h.1, ?_⟩
  rw [h.2]
  rfl

/-- C9: the id files are persisted only after their subcommand has
succeeded.  If creation fails, neither id file is written; if creation
succeeds and registration fails, the notebook-id file holds the obtained
session id but no source-id file is written. -/
theorem claim_C9 (cfg : Config) (w : World)
    (h1 : w.nlmInstalled = true) (h2 : w.sourceExists = true)
    (h3 : cfg.withPaper2any = false)
    (hw : ∀ p, w.writeFails p = false) :
    ((w.exec createCmd).returncode ≠ 0 →
      fsGet (run cfg w).2.fs "notebook-id.txt" = none ∧
      fsGet (run cfg w).2.fs "source-id.txt" = none) ∧
    ((w.exec createCmd).returncode = 0 →
      (w.exec (addCmd w)).returncode ≠ 0 →
      fsGet (run cfg w).2.fs "source-id.txt" = none ∧
      fsGet (run cfg w).2.fs "notebook-id.txt" = some (nbOut w)) := by
  constructor
  · intro hc
    rw [run, checkPrerequisites_ok_simple cfg w initSt h1 h2 h3]
    simp only [initSt, List.nil_append, setupOutputDir, pipelineBody]
    rw [createNotebook_fail w _ hc]
    simp only [seqP]
    exact ⟨rfl, rfl⟩
  · intro hc ha
    rw [run, checkPrerequisites_ok_simple cfg w initSt h1 h2 h3]
    simp only [initSt, List.nil_append, setupOutputDir, pipelineBody]
    rw [createNotebook_ok w _ hc (hw _)]
    simp only [seqP]
    rw [addSource_fail w _ rfl ha]
    simp only [seqP]
    constructor
    · rw [fsGet_fsSet_ne _ _ _ _ (by decide)]
      rfl
    · exact fsGet_fsSet_self _ _ _

/-- An oracle where exactly the `add` subcommand fails. -/
def wAddFail : World :=
  { wBase with exec := fun c =>
      if c.get? 1 = some "add" then ⟨1, "", " nope "⟩
      else ⟨0, " id ", ""⟩ }

theorem claim_C9_witness :
    (fsGet (run cfgPlain wCreateFail).2.fs "notebook-id.txt" = none ∧
     fsGet (run cfgPlain wCreateFail).2.fs "source-id.txt" = none) ∧
    (fsGet (run cfgPlain wAddFail).2.fs "source-id.txt" = none ∧
     fsGet (run cfgPlain wAddFail).2.fs "notebook-id.txt" = some "id") := by
  constructor
  · exact (claim_C9 cfgPlain wCreateFail rfl rfl rfl (fun p => rfl)).1
      (by decide)
  · have h := (claim_C9 cfgPlain wAddFail rfl rfl rfl (fun p => rfl)).2
      (by decide) (by decide)
    refine ⟨h.1, ?_⟩
    rw [h.2]
    rfl

/-- C10: the per-task failure tolerance of the generation driver covers
only external-command failures.  If a task's subcommand succeeds but
writing its output file raises, the exception is not absorbed at the
task boundary (no warning for that task appears) and escapes to the
top-level handler: the run aborts with exit code 1, no later task is
spawned, and neither that task's file nor the index is ever written.
The obtained session id is echoed after the diagnostic exactly when it
is truthy (non-empty). -/
theorem claim_C10 (cfg : Config) (w : World)
    (h1 : w.nlmInstalled = true) (h2 : w.sourceExists = true)
    (h3 : cfg.withPaper2any = false)
    (hc : (w.exec createCmd).returncode = 0)
    (ha : (w.exec (addCmd w)).returncode = 0)
    (hwn : w.writeFails "notebook-id.txt" = false)
    (hws : w.writeFails "source-id.txt" = false)
    (l1 : List GenStep) (j : GenStep) (l2 : List GenStep)
    (hsplit : GENERATION_STEPS = l1 ++ j :: l2)
    (hbefore : ∀ st ∈ l1, genFails w (nbOut w) (srcOut w) st = true ∨
      w.writeFails st.filename = false)
    (hjf : genFails w (nbOut w) (srcOut w) j = false)
    (hjw : w.writeFails j.filename = true) :
    (run cfg w).1 = 1 ∧
    (run cfg w).2.errLog =
      (l1.filter (fun st => genFails w (nbOut w) (srcOut w) st)).map
        (genWarn w (nbOut w) (srcOut w)) ++
      ["\nError: " ++ w.osMsg j.filename] ++
      (if nbOut w = "" then []
       else ["Notebook ID for cleanup: " ++ nbOut w]) ∧
    (run cfg w).2.trace = [["nlm", "help"], createCmd, addCmd w] ++
      (l1 ++ [j]).map (fun st => genCmd st (nbOut w) (srcOut w)) ∧
    fsGet (run cfg w).2.fs "00-index.md" = none ∧
    fsGet (run cfg w).2.fs j.filename = none := by
  have hnodup : (GENERATION_STEPS.map GenStep.filename).Nodup := by decide
  rw [run, checkPrerequisites_ok_simple cfg w initSt h1 h2 h3]
  simp only [initSt, List.nil_append, setupOutputDir, pipelineBody]
  rw [createNotebook_ok w _ hc hwn]
  simp only [seqP]
  rw [addSource_ok w _ rfl ha hws]
  simp only [seqP, waitForProcessing, generateAllContent, pyStr]
  rw [hsplit, genSteps_abort w (nbOut w) (srcOut w) l1 j l2 _ hbefore hjf hjw]
  simp only [seqP, errText]
  refine ⟨?_, ?_, ?_, ?_, ?_⟩
  · trivial
  · by_cases hnb : nbOut w = "" <;> simp [pyTruthy, pyStr, hnb]
  · simp
  · have hnotmem : ∀ st ∈ l1, st.filename ≠ "00-index.md" := by
      intro st hst
      have : st ∈ GENERATION_STEPS := by
        rw [hsplit]; exact List.mem_append_left _ hst
      fin_cases this <;> decide
    rw [fsAfterGen_get_notmem w (nbOut w) (srcOut w) l1 "00-index.md" hnotmem]
    rw [fsGet_fsSet_ne _ _ _ _ (by decide), fsGet_fsSet_ne _ _ _ _ (by decide)]
    rfl
  · have hnodup2 := hnodup
    rw [hsplit, List.map_append, List.nodup_append] at hnodup2
    have hnotmem : ∀ st ∈ l1, st.filename ≠ j.filename := by
      intro st hst he
      have hm1 : st.filename ∈ List.map GenStep.filename l1 :=
        List.mem_map_of_mem _ hst
      have hm2 : st.filename ∈ List.map GenStep.filename (j :: l2) := by
        rw [he]
        exact List.mem_map_of_mem _ (List.mem_cons_self j l2)
      exact hnodup2.2.2 hm1 hm2
    have hjid : j.filename ≠ "source-id.txt" ∧ j.filename ≠ "notebook-id.txt" := by
      have : j ∈ GENERATION_STEPS := by
        rw [hsplit]; exact List.mem_append_right _ (List.mem_cons_self j l2)
      fin_cases this <;> exact ⟨by decide, by decide⟩
    rw [fsAfterGen_get_notmem w (nbOut w) (srcOut w) l1 j.filename hnotmem]
    rw [fsGet_fsSet_ne _ _ _ _ hjid.1, fsGet_fsSet_ne _ _ _ _ hjid.2]
    rfl

/-- An oracle where every spawn succeeds but writing the first task's
output file raises an OS error. -/
def wWriteFail : World :=
  { wBase with writeFails := fun p => p == "01-overview-guide.md" }

theorem claim_C10_witness :
    (run cfgPlain wWriteFail).1 = 1 ∧
    (run cfgPlain wWriteFail).2.errLog =
      ["\nError: 01-overview-guide.md", "Notebook ID for cleanup: id"] ∧
    fsGet (run cfgPlain wWriteFail).2.fs "00-index.md" = none := by
  have h := claim_C10 cfgPlain wWriteFail rfl rfl rfl (by decide) (by decide)
    (by decide) (by decide) []
    ⟨"01-overview-guide.md", "generate-guide", "Structured overview guide",
      false⟩
    (GENERATION_STEPS.tail) rfl (by simp) (by decide) (by decide)
  refine ⟨h.1, ?_, h.2.2.2.1⟩
  rw [h.2.1]
  rfl

/-- The renderer invocations of distinct rendering tasks are distinct
command lines (their input artifacts differ, and the two entry scripts
take different flags). -/
theorem renderCmd_inj (w : World) (pdir : String) :
    ∀ u ∈ PAPER2ANY_STEPS, ∀ v ∈ PAPER2ANY_STEPS,
      renderCmd w pdir u = renderCmd w pdir v → u = v := by
  intro u hu v hv h
  fin_cases hu <;> fin_cases hv <;>
    first
      | rfl
      | simp [renderCmd, figureCmd, pptCmd] at h

/-- The output subdirectories of distinct rendering tasks are distinct. -/
theorem renderDir_inj :
    ∀ u ∈ PAPER2ANY_STEPS, ∀ v ∈ PAPER2ANY_STEPS,
      "visuals/" ++ u.subdir = "visuals/" ++ v.subdir → u = v := by
  intro u hu v hv h
  fin_cases hu <;> fin_cases hv <;>
    first
      | rfl
      | exact absurd h (by decide)

/-- C6: when a rendering task's referenced input artifact is missing or
has zero size, the task is skipped: its renderer command is never
spawned and its output subdirectory is never created, while the
remaining rendering tasks are still processed in their fixed order (the
appended trace is exactly the non-skipped tasks' commands in list
order); the modelled filesystem is untouched by the rendering stage. -/
theorem claim_C6 (w : World) (pdir : String) (s : St) (t : RenderStep)
    (hmem : t ∈ PAPER2ANY_STEPS)
    (h : fsGet s.fs t.inputFile = none ∨ fsGet s.fs t.inputFile = some "") :
    (renderVisuals w pdir s).trace = s.trace ++
      (PAPER2ANY_STEPS.filter (fun u => !renderSkip s.fs u)).map
        (renderCmd w pdir) ∧
    renderCmd w pdir t ∉
      (PAPER2ANY_STEPS.filter (fun u => !renderSkip s.fs u)).map
        (renderCmd w pdir) ∧
    (renderVisuals w pdir s).dirs = s.dirs ++ ["visuals"] ++
      (PAPER2ANY_STEPS.filter (fun u => !renderSkip s.fs u)).map
        (fun u => "visuals/" ++ u.subdir) ∧
    ("visuals/" ++ t.subdir) ∉
      (PAPER2ANY_STEPS.filter (fun u => !renderSkip s.fs u)).map
        (fun u => "visuals/" ++ u.subdir) ∧
    (renderVisuals w pdir s).fs = s.fs := by
  have hsk : renderSkip s.fs t = true := by
    rcases h with h | h <;> simp [renderSkip, h]
  have hrv := renderSteps_spec w pdir PAPER2ANY_STEPS
    { s with dirs := s.dirs ++ ["visuals"] }
  refine ⟨?_, ?_, ?_, ?_, ?_⟩
  · rw [renderVisuals, hrv]
  · intro hmm
    rw [List.mem_map] at hmm
    obtain ⟨u, hu, hcmd⟩ := hmm
    have hu2 : u ∈ PAPER2ANY_STEPS := List.mem_of_mem_filter hu
    have hup := List.of_mem_filter hu
    have heq : u = t := renderCmd_inj w pdir u hu2 t hmem hcmd
    rw [heq, hsk] at hup
    exact absurd hup (by decide)
  · rw [renderVisuals, hrv]
  · intro hmm
    rw [List.mem_map] at hmm
    obtain ⟨u, hu, hcmd⟩ := hmm
    have hu2 : u ∈ PAPER2ANY_STEPS := List.mem_of_mem_filter hu
    have hup := List.of_mem_filter hu
    have heq : u = t := renderDir_inj u hu2 t hmem hcmd
    rw [heq, hsk] at hup
    exact absurd hup (by decide)
  · rw [renderVisuals, hrv]

/-- A pre-rendering state where the overview and briefing artifacts
exist with content but the timeline artifact is missing. -/
def sNoTimeline : St :=
  { initSt with fs := [("01-overview-guide.md", "x"),
                       ("04-briefing-doc.md", "y")] }

theorem claim_C6_witness :
    renderCmd wBase "P"
        ⟨"02-timeline.md", "tech_route", "roadmap",
         "Process roadmap (SVG + PPTX)"⟩ ∉
      (PAPER2ANY_STEPS.filter
        (fun u => !renderSkip sNoTimeline.fs u)).map (renderCmd wBase "P") ∧
    ("visuals/" ++ "roadmap") ∉
      (PAPER2ANY_STEPS.filter
        (fun u => !renderSkip sNoTimeline.fs u)).map
          (fun u => "visuals/" ++ u.subdir) ∧
    (renderVisuals wBase "P" sNoTimeline).fs = sNoTimeline.fs := by
  have h := claim_C6 wBase "P" sNoTimeline
    ⟨"02-timeline.md", "tech_route", "roadmap",
     "Process roadmap (SVG + PPTX)"⟩ (by decide) (Or.inl (by decide))
  exact ⟨h.2.1, h.2.2.2.1, h.2.2.2.2⟩

theorem str_append_ne_empty_right (a b : String) (h : b ≠ "") :
    a ++ b ≠ "" := by
  intro he
  apply h
  have hd : a.data ++ b.data = ([] : List Char) := by
    rw [← String.data_append, he]
  exact String.ext (List.append_eq_nil.mp hd).2

theorem indexContent_ne_empty (now nb src : String) :
    indexContent now nb src ≠ "" := by
  unfold indexContent
  exact str_append_ne_empty_right _ _ (by decide)

/-- An oracle whose every spawn succeeds (exit status 0) but prints
nothing on standard output. -/
def wEmptyOut : World := { wBase with exec := fun _ => ⟨0, "", ""⟩ }

/-- C8 as stated is false: with a tool that succeeds for every
subcommand it is invoked with but whose standard output is blank, the
full run completes with exit code 0 and writes the expected files, yet
the timeline content file is written with empty (zero-size) content —
contradicting "every one of those files is non-empty". -/
theorem claim_C8_cex :
    ((run cfgPlain wEmptyOut).2.trace.all
      (fun c => (wEmptyOut.exec c).returncode == 0)) = true ∧
    (run cfgPlain wEmptyOut).1 = 0 ∧
    fsGet (run cfgPlain wEmptyOut).2.fs "02-timeline.md" = some "" := by
  refine ⟨?_, ?_, ?_⟩ <;> decide

/-- C8 (amended): if the external tool succeeds for every subcommand
invoked and each generation subcommand's trimmed standard output is
non-empty, then a full run (renderer disabled) exits 0 and the output
directory holds exactly the six expected content files, the index file
and the two id files; every content file carries its subcommand's
trimmed output (hence is non-empty) and the index file is non-empty. -/
theorem claim_C8 (cfg : Config) (w : World)
    (h1 : w.nlmInstalled = true) (h2 : w.sourceExists = true)
    (h3 : cfg.withPaper2any = false)
    (hall : ∀ c, (w.exec c).returncode = 0)
    (hw : ∀ p, w.writeFails p = false)
    (hne : ∀ st ∈ GENERATION_STEPS, genOut w (nbOut w) (srcOut w) st ≠ "") :
    (run cfg w).1 = 0 ∧
    (run cfg w).2.fs.map Prod.fst =
      ["00-index.md", "06-outline.md", "05-faq.md", "04-briefing-doc.md",
       "03-mindmap.md", "02-timeline.md", "01-overview-guide.md",
       "source-id.txt", "notebook-id.txt"] ∧
    (∀ st ∈ GENERATION_STEPS,
      fsGet (run cfg w).2.fs st.filename =
        some (genOut w (nbOut w) (srcOut w) st) ∧
      genOut w (nbOut w) (srcOut w) st ≠ "") ∧
    fsGet (run cfg w).2.fs "00-index.md" =
      some (indexContent w.now (nbOut w) (srcOut w)) ∧
    indexContent w.now (nbOut w) (srcOut w) ≠ "" := by
  have hgf : ∀ st, genFails w (nbOut w) (srcOut w) st = false := by
    intro st
    simp [genFails, hall (genCmd st (nbOut w) (srcOut w))]
  rw [run_normal cfg w h1 h2 h3 (hall _) (hall _) hw]
  refine ⟨rfl, ?_, ?_, ?_, indexContent_ne_empty _ _ _⟩
  · simp [fsAfterRun, fsAfterGen, GENERATION_STEPS, hgf, fsSet]
  · intro st hst
    refine ⟨?_, hne st hst⟩
    have hne2 : st.filename ≠ "00-index.md" := by
      fin_cases hst <;> decide
    rw [fsGet_fsSet_ne _ _ _ _ hne2, fsAfterRun]
    exact fsAfterGen_get_success w (nbOut w) (srcOut w) GENERATION_STEPS st
      hst (by decide) (hgf st) _
  · exact fsGet_fsSet_self _ _ _

theorem claim_C8_witness :
    (run cfgPlain wBase).1 = 0 ∧
    (run cfgPlain wBase).2.fs.map Prod.fst =
      ["00-index.md", "06-outline.md", "05-faq.md", "04-briefing-doc.md",
       "03-mindmap.md", "02-timeline.md", "01-overview-guide.md",
       "source-id.txt", "notebook-id.txt"] ∧
    fsGet (run cfgPlain wBase).2.fs "02-timeline.md" = some "id" := by
  have h := claim_C8 cfgPlain wBase rfl rfl rfl (fun c => rfl) (fun p => rfl)
    (by intro st hst; fin_cases hst <;> decide)
  refine ⟨h.1, h.2.1, ?_⟩
  have h2 := (h.2.2.1 ⟨"02-timeline.md", "timeline",
    "Investment process timeline", true⟩ (by decide)).1
  rw [h2]
  rfl

end Infographic
